import Mathlib

/-!
Verification of the Toys Budget Dashboard core (`src/app.py`).

The embedding models the two algorithmic components of the program:

* the record normalizer (`to_bool`, `to_money`, `normalize_name`,
  `prepare_data`), which turns raw string-valued rows into typed records, and
* the cycle accountant (`build_summary` plus the two historical aggregates
  `total_purchased` / `total_pending`), which groups records per client and
  computes the 6-calendar-month reset cycle state and action status.

Pandas timestamps are modelled as a calendar date plus seconds past midnight;
`dateutil.relativedelta(months := n)` is modelled by `addMonths`, which adds
`n` to the month and clamps the day to the length of the target month.
Monetary floats are modelled as rationals.  Python exceptions (`ValueError`
from the schema check, the `KeyError` raised by `sort_values` on an empty
frame) are modelled with `Except`.
-/

namespace ToysBudget

/-- View an `Except` as a sum, to transport decidable equality. -/
def exceptToSum {ε α : Type} : Except ε α → ε ⊕ α
  | .error e => .inl e
  | .ok a => .inr a

instance {ε α : Type} [DecidableEq ε] [DecidableEq α] :
    DecidableEq (Except ε α) := fun a b =>
  decidable_of_iff (exceptToSum a = exceptToSum b)
    (by cases a <;> cases b <;> simp [exceptToSum])

/-- A point in time: calendar date plus seconds past midnight.  Models a
pandas `Timestamp` (naive, second precision). -/
structure DateTime where
  year : Int
  month : Nat
  day : Nat
  sec : Nat
deriving DecidableEq, Repr

/-- Lexicographic order on timestamps, the order pandas uses to compare
`Timestamp` values. -/
def dtLe (a b : DateTime) : Bool :=
  if a.year ≠ b.year then a.year < b.year
  else if a.month ≠ b.month then a.month < b.month
  else if a.day ≠ b.day then a.day < b.day
  else a.sec ≤ b.sec

/-- Gregorian leap year rule. -/
def isLeap (y : Int) : Bool :=
  y % 4 == 0 && (y % 100 != 0 || y % 400 == 0)

/-- Number of days in a month of a given year. -/
def daysInMonth (y : Int) (m : Nat) : Nat :=
  if m = 2 then (if isLeap y then 29 else 28)
  else if m = 4 ∨ m = 6 ∨ m = 9 ∨ m = 11 then 30
  else 31

/-- Models `dateutil.relativedelta(months := delta)` added to a timestamp:
calendar-month arithmetic; the day of month is clamped to the last valid day
of the target month; the time of day is preserved. -/
def addMonths (delta : Int) (d : DateTime) : DateTime :=
  let t : Int := d.year * 12 + (d.month : Int) - 1 + delta
  let y : Int := t / 12
  let m : Nat := (t % 12).toNat + 1
  { year := y, month := m, day := min d.day (daysInMonth y m), sec := d.sec }

/-! ## Helper functions of `app.py` (lines 33-61) -/

/-- Set `TRUE_VALUES = {"true", "yes", "1", "y", "checked", "x"}` (app.py:33). -/
def TRUE_VALUES : List String := ["true", "yes", "1", "y", "checked", "x"]

/-- Python `str.strip()`: drop leading and trailing whitespace. -/
def strip (s : String) : String :=
  String.mk (((s.data.dropWhile Char.isWhitespace).reverse.dropWhile
    Char.isWhitespace).reverse)

/-- Python `str.lower()` on the ASCII range (the truthy vocabulary and the client
names in the claims are ASCII). -/
def lower (s : String) : String :=
  String.mk (s.data.map Char.toLower)

/-- Python `str.replace(pattern, "")` for a single-character pattern: delete every
occurrence of the character. -/
def removeChar (c : Char) (s : String) : String :=
  String.mk (s.data.filter (fun x => x ≠ c))

/-- Function `to_bool` (app.py:35-42): fill missing with "", strip, lowercase, then
test membership in `TRUE_VALUES`.  Missing cells are modelled as `""`
upstream, so the scalar function takes the raw cell string. -/
def to_bool (s : String) : Bool :=
  TRUE_VALUES.contains (lower (strip s))

/-- Count of leading decimal digits, their value, and the rest of the list. -/
def readDigits : List Char → Nat → Nat → Nat × Nat × List Char
  | c :: cs, cnt, val =>
    if c.isDigit then readDigits cs (cnt + 1) (val * 10 + (c.toNat - 48))
    else (cnt, val, c :: cs)
  | [], cnt, val => (cnt, val, [])

/-- Read an optional leading sign, returning the sign as a rational factor
and the remaining characters. -/
def parseSign (cs : List Char) : Rat × List Char :=
  match cs with
  | c :: r =>
    if c = '-' then (-1, r) else if c = '+' then (1, r) else (1, c :: r)
  | [] => (1, [])

/-- Finish a decimal literal after the integer digits: either nothing
follows (integer), or a dot followed by fraction digits follows; anything
else is malformed. -/
def parseFrac (sign : Rat) (n1 v1 : Nat) (rest : List Char) : Option Rat :=
  match rest with
  | [] => if 0 < n1 then some (sign * (v1 : Rat)) else none
  | c :: r2 =>
    if c = '.' then
      let (n2, v2, r3) := readDigits r2 0 0
      if r3.isEmpty ∧ 0 < n1 + n2 then
        some (sign * ((v1 : Rat) + (v2 : Rat) / (10 : Rat) ^ n2))
      else none
    else none

/-- Models `pd.to_numeric(s, errors := coerce)` on the cleaned cell string,
restricted to plain decimal literals `[+|-]digits[.digits]`; every other
string (including `""` and spreadsheet errors like `"#VALUE!"`) coerces to
`none` (NaN). -/
def parseDecimal (s : String) : Option Rat :=
  let (sign, cs) := parseSign s.data
  let (n1, v1, r1) := readDigits cs 0 0
  parseFrac sign n1 v1 r1

/-- Function `to_money` (app.py:44-53): fill missing with "", strip, delete every
`"$"` and `","`, parse numerically with coercion, and turn NaN into `0.0`. -/
def to_money (s : String) : Rat :=
  match parseDecimal (removeChar ',' (removeChar '$' (strip s))) with
  | some q => q
  | none => 0

/-- Collapse runs of whitespace to a single space (`.str.replace(r"\s+", " ")`).
The boolean argument records whether the previous character was whitespace,
so a run contributes exactly one space. -/
def collapseWS : Bool → List Char → List Char
  | _, [] => []
  | prevWS, c :: cs =>
    if c.isWhitespace then
      (if prevWS then [] else [' ']) ++ collapseWS true cs
    else c :: collapseWS false cs

/-- Function `normalize_name` (app.py:55-61): collapse internal whitespace runs to a
single space, then strip both ends. -/
def normalize_name (s : String) : String :=
  strip (String.mk (collapseWS false s.data))

/-! ## Normalized records (`prepare_data`, app.py:96-113) -/

/-- Read `HH:MM:SS` from a char list; `none` if malformed. -/
def parseTimeOfDay (cs : List Char) : Option Nat :=
  let (nh, h, r1) := readDigits cs 0 0
  match r1 with
  | ':' :: r2 =>
    let (nm, mi, r3) := readDigits r2 0 0
    match r3 with
    | ':' :: r4 =>
      let (ns, ss, r5) := readDigits r4 0 0
      if r5.isEmpty ∧ 0 < nh ∧ 0 < nm ∧ 0 < ns ∧ h < 24 ∧ mi < 60 ∧ ss < 60 then
        some (h * 3600 + mi * 60 + ss)
      else none
    | _ => none
  | _ => none

/-- Models `pd.to_datetime(s, errors := coerce)` restricted to ISO
`YYYY-MM-DD` dates with an optional ` HH:MM:SS` time; every other string
(including `""`) coerces to `none` (NaT).  The full pandas datetime grammar
is external library behavior; the program only relies on coercion to NaT on
parse failure. -/
def parse_timestamp (s : String) : Option DateTime :=
  let (ny, y, r1) := readDigits s.data 0 0
  match r1 with
  | '-' :: r2 =>
    let (nm, m, r3) := readDigits r2 0 0
    match r3 with
    | '-' :: r4 =>
      let (nd, d, r5) := readDigits r4 0 0
      let secOpt : Option Nat :=
        match r5 with
        | [] => some 0
        | ' ' :: r6 => parseTimeOfDay r6
        | _ => none
      match secOpt with
      | some sec =>
        if 0 < ny ∧ 0 < nm ∧ 0 < nd ∧ 1 ≤ m ∧ m ≤ 12 ∧ 1 ≤ d ∧
            d ≤ daysInMonth (y : Int) m then
          some { year := (y : Int), month := m, day := d, sec := sec }
        else none
      | none => none
    | _ => none
  | _ => none

/-- One normalized row, with the derived columns `prepare_data` adds.
Field names follow the dataframe column names. -/
structure Record where
  Clients : String
  Client_key : String
  Purchased_bool : Bool
  Inactive_bool : Bool
  Timestamp_dt : Option DateTime
  Amount : Rat
deriving DecidableEq, Repr

/-- Raw tabular input: header names plus rows of raw cell strings. -/
structure RawTable where
  cols : List String
  rows : List (List String)
deriving DecidableEq, Repr

/-- The schema error raised at app.py:102.  The Python message is the string
`"Missing required columns: {missing}. Found: {found}"`; the model keeps the
two lists the message is built from. -/
structure SchemaError where
  missing : List String
  found : List String
deriving DecidableEq, Repr

/-- List `required_cols` (app.py:99). -/
def required_cols : List String :=
  ["Timestamp", "Clients", "Purchased", "Inactive", "Clean Cost"]

/-- Cell of a row under a column name; absent columns or short rows read as
the empty cell (pandas NaN, filled with `""` by the coercion helpers). -/
def cellOf (cols : List String) (row : List String) (c : String) : String :=
  match cols.findIdx? (fun x => x = c) with
  | some i => row.getD i ""
  | none => ""

/-- The per-row work of `prepare_data` (app.py:104-111): normalized display
name, lowercased grouping key, coerced booleans, coerced timestamp, coerced
amount. -/
def mkRecord (cols : List String) (row : List String) : Record :=
  let clients := normalize_name (cellOf cols row "Clients")
  { Clients := clients
    Client_key := lower clients
    Purchased_bool := to_bool (cellOf cols row "Purchased")
    Inactive_bool := to_bool (cellOf cols row "Inactive")
    Timestamp_dt := parse_timestamp (cellOf cols row "Timestamp")
    Amount := to_money (cellOf cols row "Clean Cost") }

/-- Function `prepare_data` (app.py:96-113): fatal `ValueError` when any required
column is missing (listing the missing and the found columns), otherwise
total per-row coercion. -/
def prepare_data (t : RawTable) : Except SchemaError (List Record) :=
  let missing := required_cols.filter (fun c => ¬ t.cols.contains c)
  if missing.isEmpty then .ok (t.rows.map (mkRecord t.cols))
  else .error { missing := missing, found := t.cols }

/-! ## Cycle accountant (`build_summary`, app.py:118-179, and the
historical aggregates, app.py:202-205) -/

/-- One row of the summary dataframe (app.py:169-177).  Field names follow
the local variable names of `build_summary`. -/
structure Summary where
  Client : String
  purchased_cycle : Rat
  pending_total : Rat
  remaining : Rat
  action_status : String
  last_purchase : Option DateTime
  reset_date : Option DateTime
deriving DecidableEq, Repr

/-- Models `purchases["Timestamp_dt"].max()`: the maximum timestamp of a record
list, skipping NaT entries; `none` (NaT) when the list is empty or every
timestamp is NaT. -/
def maxTS : List Record → Option DateTime
  | [] => none
  | r :: rs =>
    match r.Timestamp_dt, maxTS rs with
    | none, m => m
    | some t, none => some t
    | some t, some m => some (if dtLe t m then m else t)

/-- Models `series["Amount"].sum()` over a record list. -/
def sumAmount (rs : List Record) : Rat :=
  rs.foldr (fun r acc => r.Amount + acc) 0

/-- Models `group[group["Purchased_bool"] == True]` (app.py:128). -/
def purchasesOf (group : List Record) : List Record :=
  group.filter (fun r => r.Purchased_bool = true)

/-- Models `group[group["Purchased_bool"] == False]` (app.py:129). -/
def pendingOf (group : List Record) : List Record :=
  group.filter (fun r => r.Purchased_bool = false)

/-- Models `purchases["Timestamp_dt"] >= cycle_start` (app.py:147): a NaT
timestamp compares false against any bound, so null-timestamp rows never
enter the cycle sum. -/
def inCycle (cycle_start : DateTime) (r : Record) : Bool :=
  match r.Timestamp_dt with
  | some t => dtLe cycle_start t
  | none => false

/-- The action status chain of app.py:156-167. -/
def actionStatusOf (BUDGET pending_total remaining : Rat) : String :=
  if pending_total > 0 then
    if pending_total > remaining then "Over Budget — Pending"
    else "Place Order"
  else if remaining = BUDGET then "Eligible"
  else if remaining = 0 then "Not Eligible — Wait 6 Months"
  else "Purchased"

/-- Assemble one summary row (app.py:151-177). -/
def finishRow (BUDGET : Rat) (client_name : String)
    (purchased_cycle pending_total remaining : Rat)
    (last_purchase reset_date : Option DateTime) : Summary :=
  { Client := client_name
    purchased_cycle := purchased_cycle
    pending_total := pending_total
    remaining := remaining
    action_status := actionStatusOf BUDGET pending_total remaining
    last_purchase := last_purchase
    reset_date := reset_date }

/-- The body of the `for client_key, group in df.groupby("Client_key")` loop
(app.py:125-177): cycle state of one client's (active) record group.
`purchases.empty or purchases["Timestamp_dt"].isna().all()` is exactly
`maxTS (purchasesOf group) = none`. -/
def clientSummary (today : DateTime) (BUDGET : Rat) (group : List Record) :
    Summary :=
  let client_name := (group.head?.map (fun r => r.Clients)).getD ""
  let purchases := purchasesOf group
  let pending_total := sumAmount (pendingOf group)
  match maxTS purchases with
  | none => finishRow BUDGET client_name 0 pending_total BUDGET none none
  | some last_purchase =>
    let reset_date := addMonths 6 last_purchase
    if dtLe reset_date today then
      finishRow BUDGET client_name 0 pending_total BUDGET
        (some last_purchase) (some reset_date)
    else
      let cycle_start := addMonths (-6) last_purchase
      let purchased_cycle := sumAmount (purchases.filter (inCycle cycle_start))
      finishRow BUDGET client_name purchased_cycle pending_total
        (max (BUDGET - purchased_cycle) 0) (some last_purchase)
        (some reset_date)

/-- Models `df_all[df_all["Inactive_bool"] == False]` (app.py:120). -/
def activeOf (df_all : List Record) : List Record :=
  df_all.filter (fun r => r.Inactive_bool = false)

/-- First-occurrence deduplication of the grouping keys.  (`groupby` sorts
keys, but the result is re-sorted by display name at app.py:179, so group
order does not affect the output set.) -/
def dedupKeys : List String → List String
  | [] => []
  | k :: ks => k :: (dedupKeys ks).filter (fun x => x ≠ k)

/-- Function `build_summary` (app.py:118-179): keep active records only, group by
`Client_key`, fold each group to a summary row, and sort rows by display
name.  `pd.DataFrame([])` has no columns, so `.sort_values("Client")` on an
empty row list raises `KeyError` — modelled as the `Except.error` branch. -/
def build_summary (today : DateTime) (BUDGET : Rat) (df_all : List Record) :
    Except String (List Summary) :=
  let df := activeOf df_all
  let keys := dedupKeys (df.map (fun r => r.Client_key))
  let rows := keys.map (fun k =>
    clientSummary today BUDGET (df.filter (fun r => r.Client_key = k)))
  if rows.isEmpty then .error "KeyError: Client"
  else .ok (List.insertionSort (fun a b => a.Client ≤ b.Client) rows)

/-- KPI `total_purchased` (app.py:202): sum over ALL rows with
`Purchased_bool == True`, inactive included. -/
def total_purchased (df_all : List Record) : Rat :=
  sumAmount (df_all.filter (fun r => r.Purchased_bool = true))

/-- KPI `total_pending` (app.py:205): sum over ALL rows with
`Purchased_bool == False`, inactive included. -/
def total_pending (df_all : List Record) : Rat :=
  sumAmount (df_all.filter (fun r => r.Purchased_bool = false))

/-! ## Concrete fixtures used to instantiate the theorems -/

/-- Build a record literal. -/
def mkRec (name key : String) (p i : Bool) (ts : Option DateTime) (amt : Rat) :
    Record :=
  { Clients := name, Client_key := key, Purchased_bool := p,
    Inactive_bool := i, Timestamp_dt := ts, Amount := amt }

/-- Reference date used by the concrete scenarios (all of which have their
last purchase on 2025-01-10, so 2025-02-01 is inside the open cycle). -/
def day0201 : DateTime := ⟨2025, 2, 1, 0⟩

/-- A two-record set: one active purchased row, one inactive pending row. -/
def dfMixed : List Record :=
  [mkRec "A" "a" true false (some ⟨2025, 1, 10, 0⟩) 10,
   mkRec "B" "b" false true none 7]

/-- The single summary row `build_summary day0201 25 dfMixed` produces. -/
def rowMixed : Summary :=
  { Client := "A", purchased_cycle := 10, pending_total := 0, remaining := 15,
    action_status := "Purchased", last_purchase := some ⟨2025, 1, 10, 0⟩,
    reset_date := some ⟨2025, 7, 10, 0⟩ }

/-- Scenario group of the spec: purchased 10 on 2025-01-10, pending 20 the
next day (budget 25). -/
def groupPend20 : List Record :=
  [mkRec "A" "a" true false (some ⟨2025, 1, 10, 0⟩) 10,
   mkRec "A" "a" false false (some ⟨2025, 1, 11, 0⟩) 20]

/-- Same scenario with the pending amount 10 instead of 20. -/
def groupPend10 : List Record :=
  [mkRec "A" "a" true false (some ⟨2025, 1, 10, 0⟩) 10,
   mkRec "A" "a" false false (some ⟨2025, 1, 11, 0⟩) 10]

/-- A client whose single (large) purchase lies more than 6 calendar months
before `day0201`. -/
def groupOld : List Record :=
  [mkRec "C" "c" true false (some ⟨2024, 1, 15, 0⟩) 100]

/-- A client with one pending row of amount 0 and no purchased rows. -/
def groupPendZero : List Record :=
  [mkRec "D" "d" false false none 0]

/-- Raw table whose single row has a negative literal amount on a purchased
row (`Clean Cost` cell `"-5"`). -/
def tblNeg : RawTable :=
  { cols := ["Timestamp", "Clients", "Purchased", "Inactive", "Clean Cost"]
    rows := [["2025-01-10", "A", "x", "", "-5"]] }

/-- Normalization of `tblNeg`. -/
def recsNeg : List Record :=
  [mkRec "A" "a" true false (some ⟨2025, 1, 10, 0⟩) (-5)]

/-- The summary row of `recsNeg` at `day0201`: the negative in-cycle amount
pushes the remaining balance to 30, above the budget of 25. -/
def rowNeg : Summary :=
  { Client := "A", purchased_cycle := -5, pending_total := 0, remaining := 30,
    action_status := "Purchased", last_purchase := some ⟨2025, 1, 10, 0⟩,
    reset_date := some ⟨2025, 7, 10, 0⟩ }

/-- Raw table with one active client holding a single pending row of
amount 10 and no purchased rows. -/
def tblPendOnly : RawTable :=
  { cols := ["Timestamp", "Clients", "Purchased", "Inactive", "Clean Cost"]
    rows := [["", "B", "", "", "10"]] }

/-- Normalization of `tblPendOnly`. -/
def recsPendOnly : List Record :=
  [mkRec "B" "b" false false none 10]

/-- The summary row of `recsPendOnly`: a never-purchased client with a
positive pending total is classified "Place Order", not "Eligible". -/
def rowPendOnly : Summary :=
  { Client := "B", purchased_cycle := 0, pending_total := 10, remaining := 25,
    action_status := "Place Order", last_purchase := none, reset_date := none }

/-- Raw table whose two rows name the same client with different whitespace
and casing. -/
def tblNames : RawTable :=
  { cols := ["Timestamp", "Clients", "Purchased", "Inactive", "Clean Cost"]
    rows := [["", " jane  doe ", "", "", ""], ["", "Jane Doe", "", "", ""]] }

/-- Normalization of `tblNames`: both rows share `Client_key = "jane doe"`. -/
def recsNames : List Record :=
  [mkRec "jane doe" "jane doe" false false none 0,
   mkRec "Jane Doe" "jane doe" false false none 0]

/-- The single merged summary row of `recsNames`; the display name comes
from the first row in input order. -/
def rowNames : Summary :=
  { Client := "jane doe", purchased_cycle := 0, pending_total := 0,
    remaining := 25, action_status := "Eligible", last_purchase := none,
    reset_date := none }

/-- Raw table missing three of the five required columns. -/
def tblMissing : RawTable :=
  { cols := ["Timestamp", "Clients"], rows := [] }

/-- Raw table with all five required columns. -/
def tblComplete : RawTable :=
  { cols := ["Timestamp", "Clients", "Purchased", "Inactive", "Clean Cost"]
    rows := [["", "A", "", "", ""]] }

/-! ## Helper lemmas -/

theorem sumAmount_cons (r : Record) (rs : List Record) :
    sumAmount (r :: rs) = r.Amount + sumAmount rs := rfl

theorem sumAmount_nonneg (rs : List Record) (h : ∀ r ∈ rs, 0 ≤ r.Amount) :
    0 ≤ sumAmount rs := by
  induction rs with
  | nil => simp [sumAmount]
  | cons r rs ih =>
    rw [sumAmount_cons]
    have hr := h r (List.mem_cons_self r rs)
    have hrs := ih (fun x hx => h x (List.mem_cons_of_mem r hx))
    positivity

theorem mem_dedupKeys (k : String) (ks : List String) :
    k ∈ dedupKeys ks ↔ k ∈ ks := by
  induction ks with
  | nil => simp [dedupKeys]
  | cons a ks ih =>
    by_cases hk : k = a
    · subst hk; simp [dedupKeys]
    · simp [dedupKeys, hk, List.mem_filter, ih]

/-- Every row of a successful `build_summary` output is the `clientSummary`
of the active-record group of some key that occurs among the active
records. -/
theorem mem_build_summary {today : DateTime} {BUDGET : Rat}
    {df_all : List Record} {l : List Summary} {s : Summary}
    (h : build_summary today BUDGET df_all = .ok l) (hs : s ∈ l) :
    ∃ k, k ∈ (activeOf df_all).map (fun r => r.Client_key) ∧
      s = clientSummary today BUDGET
        ((activeOf df_all).filter (fun r => r.Client_key = k)) := by
  simp only [build_summary] at h
  split at h
  · exact absurd h (by simp)
  · have hl : l = List.insertionSort (fun a b => a.Client ≤ b.Client)
        ((dedupKeys ((activeOf df_all).map (fun r => r.Client_key))).map
          (fun k => clientSummary today BUDGET
            ((activeOf df_all).filter (fun r => r.Client_key = k)))) := by
      exact (Except.ok.injEq _ _).mp h.symm
    rw [hl] at hs
    have hs2 := (List.perm_insertionSort
      (fun a b : Summary => a.Client ≤ b.Client) _).mem_iff.mp hs
    obtain ⟨k, hk, he⟩ := List.mem_map.mp hs2
    exact ⟨k, (mem_dedupKeys k _).mp hk, he.symm⟩

/-- Case equation: a client with no purchased record with a real
timestamp. -/
theorem clientSummary_eq_never {today : DateTime} {BUDGET : Rat}
    {g : List Record} (h : maxTS (purchasesOf g) = none) :
    clientSummary today BUDGET g =
      finishRow BUDGET ((g.head?.map (fun r => r.Clients)).getD "") 0
        (sumAmount (pendingOf g)) BUDGET none none := by
  simp only [clientSummary, h]

/-- Case equation: the cycle has elapsed (`today >= reset_date`). -/
theorem clientSummary_eq_reset {today : DateTime} {BUDGET : Rat}
    {g : List Record} {lp : DateTime} (h : maxTS (purchasesOf g) = some lp)
    (hr : dtLe (addMonths 6 lp) today = true) :
    clientSummary today BUDGET g =
      finishRow BUDGET ((g.head?.map (fun r => r.Clients)).getD "") 0
        (sumAmount (pendingOf g)) BUDGET (some lp)
        (some (addMonths 6 lp)) := by
  simp only [clientSummary, h, hr, if_true]

/-- Case equation: still inside an open cycle (`today < reset_date`). -/
theorem clientSummary_eq_open {today : DateTime} {BUDGET : Rat}
    {g : List Record} {lp : DateTime} (h : maxTS (purchasesOf g) = some lp)
    (hr : dtLe (addMonths 6 lp) today = false) :
    clientSummary today BUDGET g =
      finishRow BUDGET ((g.head?.map (fun r => r.Clients)).getD "")
        (sumAmount ((purchasesOf g).filter (inCycle (addMonths (-6) lp))))
        (sumAmount (pendingOf g))
        (max (BUDGET -
          sumAmount ((purchasesOf g).filter (inCycle (addMonths (-6) lp)))) 0)
        (some lp) (some (addMonths 6 lp)) := by
  simp only [clientSummary, h, hr, Bool.false_eq_true, if_false]

/-- The action status of any summary row is the chain of app.py:156-167
applied to the row's own pending total and remaining balance. -/
theorem clientSummary_status (today : DateTime) (BUDGET : Rat)
    (g : List Record) :
    (clientSummary today BUDGET g).action_status =
      actionStatusOf BUDGET (clientSummary today BUDGET g).pending_total
        (clientSummary today BUDGET g).remaining := by
  cases h : maxTS (purchasesOf g) with
  | none => rw [clientSummary_eq_never h]; rfl
  | some lp =>
    cases hr : dtLe (addMonths 6 lp) today with
    | true => rw [clientSummary_eq_reset h hr]; rfl
    | false => rw [clientSummary_eq_open h hr]; rfl

/-- Bounds on the remaining balance for one group, under a non-negative
budget and non-negative record amounts. -/
theorem clientSummary_remaining_bounds (today : DateTime) (BUDGET : Rat)
    (g : List Record) (hB : 0 ≤ BUDGET) (hA : ∀ r ∈ g, 0 ≤ r.Amount) :
    0 ≤ (clientSummary today BUDGET g).remaining ∧
      (clientSummary today BUDGET g).remaining ≤ BUDGET := by
  cases h : maxTS (purchasesOf g) with
  | none =>
    rw [clientSummary_eq_never h]
    exact ⟨hB, le_refl _⟩
  | some lp =>
    cases hr : dtLe (addMonths 6 lp) today with
    | true =>
      rw [clientSummary_eq_reset h hr]
      exact ⟨hB, le_refl _⟩
    | false =>
      rw [clientSummary_eq_open h hr]
      have hsub : ∀ r ∈ (purchasesOf g).filter
          (inCycle (addMonths (-6) lp)), 0 ≤ r.Amount := by
        intro r hrm
        have h1 := (List.mem_filter.mp hrm).1
        have h2 := (List.mem_filter.mp h1).1
        exact hA r h2
      have hpc := sumAmount_nonneg _ hsub
      refine ⟨le_max_right _ _, max_le (by linarith) hB⟩

/-- Reassigning every record's inactive flag does not change the sum of
amounts over either `purchased` partition. -/
theorem sumAmount_filter_purchased_map (df : List Record)
    (g : Record → Bool) (b : Bool) :
    sumAmount ((df.map (fun r => { r with Inactive_bool := g r })).filter
      (fun r => r.Purchased_bool = b)) =
    sumAmount (df.filter (fun r => r.Purchased_bool = b)) := by
  induction df with
  | nil => rfl
  | cons r rs ih =>
    simp only [List.map_cons, List.filter_cons]
    by_cases hp : r.Purchased_bool = b
    · simp only [hp, decide_True, if_true, sumAmount_cons, ih]
    · simp only [hp, decide_False, Bool.false_eq_true, if_false, ih]

/-- Unfolding of `prepare_data` with its let-bound missing-column list. -/
theorem prepare_data_eq (t : RawTable) :
    prepare_data t =
      if (required_cols.filter (fun c => ¬ t.cols.contains c)).isEmpty then
        .ok (t.rows.map (mkRecord t.cols))
      else
        .error { missing := required_cols.filter (fun c => ¬ t.cols.contains c)
                 found := t.cols } := rfl

/-- The let-bound missing-column list of `prepare_data` is empty exactly
when every required column is present. -/
theorem missing_empty_iff (t : RawTable) :
    (required_cols.filter (fun c => ¬ t.cols.contains c)).isEmpty = true ↔
      ∀ c ∈ required_cols, t.cols.contains c = true := by
  rw [List.isEmpty_iff, List.filter_eq_nil_iff]
  simp

/-! ## Claims -/

/-- C1: the historical aggregates `total_purchased` and `total_pending` are
computed over every normalized record, partitioned solely by the purchased
flag, and are invariant under any reassignment of the inactive flags; and
every Client Cycle Summary of `build_summary` belongs to a `Client_key`
carried by at least one `inactive = false` record, and is computed from a
group containing only `inactive = false` records. -/
theorem claim_C1 :
    (∀ (df_all : List Record) (g : Record → Bool),
      total_purchased (df_all.map (fun r =>
        { r with Inactive_bool := g r })) = total_purchased df_all ∧
      total_pending (df_all.map (fun r =>
        { r with Inactive_bool := g r })) = total_pending df_all) ∧
    (∀ (today : DateTime) (BUDGET : Rat) (df_all : List Record)
      (l : List Summary), build_summary today BUDGET df_all = .ok l →
      ∀ s ∈ l, ∃ k,
        (∃ r ∈ df_all, r.Inactive_bool = false ∧ r.Client_key = k) ∧
        (∀ r ∈ (activeOf df_all).filter (fun r => r.Client_key = k),
          r.Inactive_bool = false) ∧
        s = clientSummary today BUDGET
          ((activeOf df_all).filter (fun r => r.Client_key = k))) := by
  constructor
  · intro df g
    exact ⟨sumAmount_filter_purchased_map df g true,
      sumAmount_filter_purchased_map df g false⟩
  · intro today BUDGET df l h s hs
    obtain ⟨k, hk, he⟩ := mem_build_summary h hs
    obtain ⟨r, hr, hrk⟩ := List.mem_map.mp hk
    have hra := List.mem_filter.mp hr
    refine ⟨k, ⟨r, hra.1, by simpa using hra.2, hrk⟩, ?_, he⟩
    intro r0 hr0
    have h0 := (List.mem_filter.mp (List.mem_filter.mp hr0).1).2
    simpa using h0

set_option maxRecDepth 100000 in
/-- Witness for C1 on a concrete record set with one active and one
inactive record. -/
theorem claim_C1_witness :
    (total_purchased (dfMixed.map (fun r =>
        { r with Inactive_bool := (fun _ : Record => true) r })) =
      total_purchased dfMixed ∧
     total_pending (dfMixed.map (fun r =>
        { r with Inactive_bool := (fun _ : Record => true) r })) =
      total_pending dfMixed) ∧
    (∃ k, (∃ r ∈ dfMixed, r.Inactive_bool = false ∧ r.Client_key = k) ∧
      (∀ r ∈ (activeOf dfMixed).filter (fun r => r.Client_key = k),
        r.Inactive_bool = false) ∧
      rowMixed = clientSummary day0201 25
        ((activeOf dfMixed).filter (fun r => r.Client_key = k))) :=
  ⟨claim_C1.1 dfMixed (fun _ => true),
   claim_C1.2 day0201 25 dfMixed [rowMixed] (by with_unfolding_all decide)
     rowMixed (List.mem_cons_self _ _)⟩

/-- C2: an active client with a real last purchase timestamp `lp` whose
reset date `lp + 6` calendar months is on or before today gets a zero cycle
total and the full allowance back, regardless of historical amounts. -/
theorem claim_C2 (today : DateTime) (BUDGET : Rat) (group : List Record)
    (lp : DateTime) (h : maxTS (purchasesOf group) = some lp)
    (hr : dtLe (addMonths 6 lp) today = true) :
    (clientSummary today BUDGET group).purchased_cycle = 0 ∧
    (clientSummary today BUDGET group).remaining = BUDGET := by
  rw [clientSummary_eq_reset h hr]
  exact ⟨rfl, rfl⟩

/-- Witness for C2: a 100-unit purchase made more than 6 calendar months
before today is fully forgotten. -/
theorem claim_C2_witness :
    (clientSummary day0201 25 groupOld).purchased_cycle = 0 ∧
    (clientSummary day0201 25 groupOld).remaining = 25 :=
  claim_C2 day0201 25 groupOld ⟨2024, 1, 15, 0⟩ (by decide) (by decide)

/-- C3: inside an open cycle the cycle total sums the purchased records
with timestamp at or after `lp - 6` calendar months, the remaining balance
is the budget minus that total floored at zero, and the reset date is
`lp + 6` calendar months; month arithmetic is calendar-based with
end-of-month clamping (Jan 31 + 6 months = Jul 31; Aug 31 2025 + 6 months =
Feb 28 2026; Mar 31 2026 - 6 months = Sep 30 2025). -/
theorem claim_C3 (today : DateTime) (BUDGET : Rat) (group : List Record)
    (lp : DateTime) (h : maxTS (purchasesOf group) = some lp)
    (hr : dtLe (addMonths 6 lp) today = false) :
    ((clientSummary today BUDGET group).purchased_cycle =
      sumAmount ((purchasesOf group).filter (inCycle (addMonths (-6) lp))) ∧
     (clientSummary today BUDGET group).remaining =
      max (BUDGET - (clientSummary today BUDGET group).purchased_cycle) 0 ∧
     (clientSummary today BUDGET group).reset_date =
      some (addMonths 6 lp)) ∧
    addMonths 6 ⟨2025, 1, 31, 0⟩ = ⟨2025, 7, 31, 0⟩ ∧
    addMonths 6 ⟨2025, 8, 31, 0⟩ = ⟨2026, 2, 28, 0⟩ ∧
    addMonths (-6) ⟨2026, 3, 31, 0⟩ = ⟨2025, 9, 30, 0⟩ := by
  rw [clientSummary_eq_open h hr]
  exact ⟨⟨rfl, rfl, rfl⟩, by decide, by decide, by decide⟩

/-- Witness for C3 on the spec scenario group (purchase of 10 on
2025-01-10 seen from 2025-02-01). -/
theorem claim_C3_witness :
    ((clientSummary day0201 25 groupPend20).purchased_cycle =
      sumAmount ((purchasesOf groupPend20).filter
        (inCycle (addMonths (-6) ⟨2025, 1, 10, 0⟩))) ∧
     (clientSummary day0201 25 groupPend20).remaining =
      max (25 - (clientSummary day0201 25 groupPend20).purchased_cycle) 0 ∧
     (clientSummary day0201 25 groupPend20).reset_date =
      some (addMonths 6 ⟨2025, 1, 10, 0⟩)) ∧
    addMonths 6 ⟨2025, 1, 31, 0⟩ = ⟨2025, 7, 31, 0⟩ ∧
    addMonths 6 ⟨2025, 8, 31, 0⟩ = ⟨2026, 2, 28, 0⟩ ∧
    addMonths (-6) ⟨2026, 3, 31, 0⟩ = ⟨2025, 9, 30, 0⟩ :=
  claim_C3 day0201 25 groupPend20 ⟨2025, 1, 10, 0⟩ (by decide) (by decide)

set_option maxRecDepth 100000 in
/-- C4: the action status of every summary row follows the stated
precedence chain on its own pending total and remaining balance; in
particular with budget 25, an open-cycle purchased total of 10 and pending
total 20 the status is "Over Budget — Pending", and with pending total 10
it is "Place Order". -/
theorem claim_C4 :
    (∀ (today : DateTime) (BUDGET : Rat) (group : List Record),
      (clientSummary today BUDGET group).action_status =
        (if (clientSummary today BUDGET group).pending_total > 0 then
          if (clientSummary today BUDGET group).pending_total >
              (clientSummary today BUDGET group).remaining then
            "Over Budget — Pending"
          else "Place Order"
        else if (clientSummary today BUDGET group).remaining = BUDGET then
          "Eligible"
        else if (clientSummary today BUDGET group).remaining = 0 then
          "Not Eligible — Wait 6 Months"
        else "Purchased")) ∧
    ((clientSummary day0201 25 groupPend20).purchased_cycle = 10 ∧
     (clientSummary day0201 25 groupPend20).pending_total = 20 ∧
     (clientSummary day0201 25 groupPend20).remaining = 15 ∧
     (clientSummary day0201 25 groupPend20).action_status =
      "Over Budget — Pending") ∧
    ((clientSummary day0201 25 groupPend10).purchased_cycle = 10 ∧
     (clientSummary day0201 25 groupPend10).pending_total = 10 ∧
     (clientSummary day0201 25 groupPend10).remaining = 15 ∧
     (clientSummary day0201 25 groupPend10).action_status = "Place Order") := by
  refine ⟨fun today BUDGET group => ?_,
    ⟨by with_unfolding_all decide, by with_unfolding_all decide,
     by with_unfolding_all decide, by with_unfolding_all decide⟩,
    ⟨by with_unfolding_all decide, by with_unfolding_all decide,
     by with_unfolding_all decide, by with_unfolding_all decide⟩⟩
  rw [clientSummary_status]
  rfl

set_option maxRecDepth 100000 in
/-- Counterexample to C5 as stated: a purchased row whose literal amount is
negative (parsed faithfully by `to_money`) drives the remaining balance to
30, strictly above the 25 budget. -/
theorem claim_C5_counterexample :
    prepare_data tblNeg = .ok recsNeg ∧
    build_summary day0201 25 recsNeg = .ok [rowNeg] ∧
    rowNeg.remaining = 30 ∧ ¬ rowNeg.remaining ≤ 25 := by
  with_unfolding_all decide

/-- C5 (amended): when the budget is non-negative and every record amount
is non-negative, every summary row's remaining balance lies in
`[0, BUDGET]`. -/
theorem claim_C5 (today : DateTime) (BUDGET : Rat) (df_all : List Record)
    (l : List Summary) (hB : 0 ≤ BUDGET)
    (hA : ∀ r ∈ df_all, 0 ≤ r.Amount)
    (h : build_summary today BUDGET df_all = .ok l) :
    ∀ s ∈ l, 0 ≤ s.remaining ∧ s.remaining ≤ BUDGET := by
  intro s hs
  obtain ⟨k, _, he⟩ := mem_build_summary h hs
  rw [he]
  apply clientSummary_remaining_bounds _ _ _ hB
  intro r hrm
  exact hA r (List.mem_filter.mp (List.mem_filter.mp hrm).1).1

set_option maxRecDepth 100000 in
/-- Witness for C5 (amended) on a concrete mixed record set. -/
theorem claim_C5_witness :
    0 ≤ rowMixed.remaining ∧ rowMixed.remaining ≤ 25 :=
  claim_C5 day0201 25 dfMixed [rowMixed] (by with_unfolding_all decide)
    (by with_unfolding_all decide) (by with_unfolding_all decide) rowMixed
    (List.mem_cons_self _ _)

set_option maxRecDepth 100000 in
/-- Counterexample to C6 as stated: an active client with zero purchased
records but a positive pending total is classified "Place Order", not
"Eligible". -/
theorem claim_C6_counterexample :
    prepare_data tblPendOnly = .ok recsPendOnly ∧
    purchasesOf recsPendOnly = [] ∧
    (∀ r ∈ recsPendOnly, r.Inactive_bool = false) ∧
    build_summary day0201 25 recsPendOnly = .ok [rowPendOnly] ∧
    rowPendOnly.action_status = "Place Order" ∧
    rowPendOnly.action_status ≠ "Eligible" := by
  with_unfolding_all decide

/-- C6 (amended): an active client with zero purchased records (or only
null purchase timestamps) always gets a zero cycle total, the full
allowance as remaining balance, and null last-purchase/reset dates; its
action status is "Eligible" provided its pending total is not positive. -/
theorem claim_C6 (today : DateTime) (BUDGET : Rat) (group : List Record)
    (h : maxTS (purchasesOf group) = none) :
    (clientSummary today BUDGET group).purchased_cycle = 0 ∧
    (clientSummary today BUDGET group).remaining = BUDGET ∧
    (clientSummary today BUDGET group).last_purchase = none ∧
    (clientSummary today BUDGET group).reset_date = none ∧
    (¬ (clientSummary today BUDGET group).pending_total > 0 →
      (clientSummary today BUDGET group).action_status = "Eligible") := by
  rw [clientSummary_eq_never h]
  refine ⟨rfl, rfl, rfl, rfl, fun hp => ?_⟩
  simp only [finishRow, actionStatusOf] at hp ⊢
  rw [if_neg hp]
  simp

/-- Witness for C6 (amended) on a concrete group with one pending record
of amount zero. -/
theorem claim_C6_witness :
    (clientSummary day0201 25 groupPendZero).purchased_cycle = 0 ∧
    (clientSummary day0201 25 groupPendZero).remaining = 25 ∧
    (clientSummary day0201 25 groupPendZero).last_purchase = none ∧
    (clientSummary day0201 25 groupPendZero).reset_date = none ∧
    (¬ (clientSummary day0201 25 groupPendZero).pending_total > 0 →
      (clientSummary day0201 25 groupPendZero).action_status = "Eligible") :=
  claim_C6 day0201 25 groupPendZero (by decide)

set_option maxRecDepth 100000 in
/-- C7: per-field coercion is total — money parsing strips currency symbols
and thousands separators and maps blanks and spreadsheet errors to 0,
timestamp parsing maps unparseable strings to null, and the boolean
coercion accepts exactly the trimmed, lowercased truthy vocabulary. -/
theorem claim_C7 :
    to_money "$1,234.50" = (1234.5 : ℚ) ∧
    to_money "" = 0 ∧
    to_money "#VALUE!" = 0 ∧
    parse_timestamp "not a date" = none ∧
    parse_timestamp "" = none ∧
    (∀ s : String, to_bool s = true ↔
      (lower (strip s) = "true" ∨ lower (strip s) = "yes" ∨
       lower (strip s) = "1" ∨ lower (strip s) = "y" ∨
       lower (strip s) = "checked" ∨ lower (strip s) = "x")) := by
  refine ⟨?_, by with_unfolding_all decide, by with_unfolding_all decide,
    by decide, by decide, fun s => ?_⟩
  · have h0 : removeChar ',' (removeChar '$' (strip "$1,234.50")) =
        "1234.50" := by decide
    have hs : parseSign ("1234.50").data =
        (1, ['1', '2', '3', '4', '.', '5', '0']) := by
      with_unfolding_all decide
    have h2 : readDigits ['1', '2', '3', '4', '.', '5', '0'] 0 0 =
        (4, 1234, ['.', '5', '0']) := by decide
    have h3 : readDigits ['5', '0'] 0 0 = (2, 50, []) := by decide
    simp only [to_money, h0, parseDecimal, hs, h2, parseFrac, h3]
    norm_num
  · simp [to_bool, TRUE_VALUES, List.elem_iff]

/-- C8: `prepare_data` fails exactly when some required column is missing;
the error carries the list of missing columns and the list of found
columns; with all required columns present it succeeds on any row set. -/
theorem claim_C8 (t : RawTable) :
    ((∃ e, prepare_data t = .error e) ↔
      ¬ ∀ c ∈ required_cols, t.cols.contains c = true) ∧
    (∀ e, prepare_data t = .error e →
      e.missing = required_cols.filter (fun c => ¬ t.cols.contains c) ∧
      e.found = t.cols ∧ e.missing ≠ []) ∧
    ((∀ c ∈ required_cols, t.cols.contains c = true) →
      prepare_data t = .ok (t.rows.map (mkRecord t.cols))) := by
  by_cases hc : ∀ c ∈ required_cols, t.cols.contains c = true
  · have he : prepare_data t = .ok (t.rows.map (mkRecord t.cols)) := by
      rw [prepare_data_eq, if_pos ((missing_empty_iff t).mpr hc)]
    refine ⟨?_, ?_, fun _ => he⟩
    · constructor
      · rintro ⟨e, hee⟩
        rw [he] at hee
        exact absurd hee (by simp)
      · intro hn
        exact absurd hc hn
    · intro e hee
      rw [he] at hee
      exact absurd hee (by simp)
  · have hm : ¬ (required_cols.filter
        (fun c => ¬ t.cols.contains c)).isEmpty = true := by
      intro habs
      exact hc ((missing_empty_iff t).mp habs)
    have he : prepare_data t =
        .error { missing := required_cols.filter
                   (fun c => ¬ t.cols.contains c)
                 found := t.cols } := by
      rw [prepare_data_eq, if_neg hm]
    refine ⟨⟨fun _ => hc, fun _ => ⟨_, he⟩⟩, ?_, fun hall => absurd hall hc⟩
    intro e hee
    rw [he] at hee
    have hei : SchemaError.mk
        (required_cols.filter (fun c => ¬ t.cols.contains c)) t.cols = e :=
      (Except.error.injEq _ _).mp hee
    rw [← hei]
    refine ⟨rfl, rfl, ?_⟩
    intro hnil
    apply hm
    have hnil2 : required_cols.filter (fun c => ¬ t.cols.contains c) = [] :=
      hnil
    rw [hnil2]
    rfl

/-- Witness for C8: a table missing three required columns produces the
structured error, and a complete table normalizes successfully. -/
theorem claim_C8_witness :
    ((SchemaError.mk ["Purchased", "Inactive", "Clean Cost"]
        ["Timestamp", "Clients"]).missing =
      required_cols.filter (fun c => ¬ tblMissing.cols.contains c) ∧
     (SchemaError.mk ["Purchased", "Inactive", "Clean Cost"]
        ["Timestamp", "Clients"]).found = tblMissing.cols ∧
     (SchemaError.mk ["Purchased", "Inactive", "Clean Cost"]
        ["Timestamp", "Clients"]).missing ≠ []) ∧
    prepare_data tblComplete =
      .ok (tblComplete.rows.map (mkRecord tblComplete.cols)) :=
  ⟨(claim_C8 tblMissing).2.1 _ (by with_unfolding_all decide),
   (claim_C8 tblComplete).2.2 (by decide)⟩

set_option maxRecDepth 100000 in
/-- C9: client-name normalization collapses internal whitespace runs and
trims the ends; grouping uses the lowercased normalized name, so rows whose
names differ only in whitespace or case merge into a single summary row,
displayed under the normalized form of the first such row in input order. -/
theorem claim_C9 :
    normalize_name "  Jane   Doe " = "Jane Doe" ∧
    (∀ (cols row : List String),
      (mkRecord cols row).Clients =
        normalize_name (cellOf cols row "Clients") ∧
      (mkRecord cols row).Client_key =
        lower (normalize_name (cellOf cols row "Clients"))) ∧
    prepare_data tblNames = .ok recsNames ∧
    recsNames.map (fun r => r.Client_key) = ["jane doe", "jane doe"] ∧
    build_summary ⟨2025, 10, 12, 0⟩ 25 recsNames = .ok [rowNames] ∧
    rowNames.Client = "jane doe" := by
  refine ⟨by decide, fun cols row => ⟨rfl, rfl⟩,
    by with_unfolding_all decide, by decide,
    by with_unfolding_all decide, rfl⟩

/-- C10: with no active records (all inactive, or no records at all),
`build_summary` does not return an empty summary list — the final sort by
display name raises, modelled as the error result. -/
theorem claim_C10 (today : DateTime) (BUDGET : Rat) (df_all : List Record)
    (h : ∀ r ∈ df_all, r.Inactive_bool = true) :
    build_summary today BUDGET df_all = .error "KeyError: Client" := by
  have ha : activeOf df_all = [] := by
    rw [activeOf, List.filter_eq_nil_iff]
    intro r hr
    simp [h r hr]
  simp [build_summary, ha, dedupKeys]

/-- Witness for C10 on a one-record set whose only record is inactive. -/
theorem claim_C10_witness :
    build_summary day0201 25
      [mkRec "A" "a" true true (some ⟨2025, 1, 10, 0⟩) 5] =
      .error "KeyError: Client" :=
  claim_C10 day0201 25 _ (by decide)

end ToysBudget
